import Mathlib

/-!
Shallow embedding of `surokkha_finance_app.py`: a single-file Streamlit
income/expense manager.  Pandas dataframes become lists of typed rows plus an
explicit column-name list; the CSV files become an explicit file state
(absent / malformed / content); Python floats are idealised as rationals with
Python's banker's rounding made explicit.
-/

namespace Surokkha

/-! ## Calendar helpers (pandas timestamps as days since the Unix epoch) -/

/-- Convert a day count since 1970-01-01 to a civil (year, month, day) triple
(the standard civil-from-days algorithm, as used by calendar libraries). -/
def civilFromDays (z0 : Int) : Int × Int × Int :=
  let z := z0 + 719468
  let era := (if 0 ≤ z then z else z - 146096) / 146097
  let doe := z - era * 146097
  let yoe := (doe - doe / 1460 + doe / 36524 - doe / 146096) / 365
  let y := yoe + era * 400
  let doy := doe - (365 * yoe + yoe / 4 - yoe / 100)
  let mp := (5 * doy + 2) / 153
  let d := doy - (153 * mp + 2) / 5 + 1
  let m := mp + (if mp < 10 then 3 else -9)
  (y + (if m ≤ 2 then 1 else 0), m, d)

/-- Zero-pad a month number to two digits. -/
def pad2 (n : Int) : String :=
  if n < 10 then "0" ++ toString n else toString n

/-- `graph_df["Date"].dt.to_period("M").astype(str)`: the year-month label of a
timestamp; a missing date (NaT) renders as the string `"NaT"`. -/
def monthLabel : Option Int → String
  | some d =>
      let c := civilFromDays d
      toString c.1 ++ "-" ++ pad2 c.2.1
  | none => "NaT"

/-! ## Python rounding on rationals -/

/-- Floor of a rational as an integer (denominators are positive, so floor
division of numerator by denominator). -/
def qfloor (q : ℚ) : Int := Int.fdiv q.num q.den

/-- Python's built-in `round` to an integer: round-half-to-even. -/
def pyRound (q : ℚ) : Int :=
  let f := qfloor q
  let frac := q - (f : ℚ)
  if frac < 1 / 2 then f
  else if 1 / 2 < frac then f + 1
  else if f % 2 = 0 then f else f + 1

/-- Python's `round(x, 2)`. -/
def round2 (q : ℚ) : ℚ := (pyRound (q * 100) : ℚ) / 100

/-! ## Data model

A transaction row (`new_row`, lines 146-157 of the source) has ten fields.
In-memory dates are `Option Int` (`none` = pandas NaT). -/

structure Row where
  date : Option Int
  category : String
  type : String
  amount : ℚ
  paymentMethod : String
  clientName : String
  phoneNumber : String
  clientAddress : String
  dutyDoctor : String
  details : String
deriving DecidableEq

/-- A raw `Date` cell of the CSV file: a well-formed timestamp string for day
`n` (written by pandas for a real timestamp), an unparseable string, or an
empty cell (how NaT serialises). -/
inductive DateCell where
  | iso (n : Int)
  | junk (s : String)
  | empty
deriving DecidableEq

/-- `pd.to_datetime(cell, errors="coerce")` on a single cell: well-formed
timestamps parse back; anything else coerces to NaT. -/
def parseDateCell : DateCell → Option Int
  | .iso n => some n
  | .junk _ => none
  | .empty => none

/-- A row as stored in `transactions.csv`: the `Date` column is a raw cell,
the other nine fields as typed values. -/
structure RawRow where
  date : DateCell
  category : String
  type : String
  amount : ℚ
  paymentMethod : String
  clientName : String
  phoneNumber : String
  clientAddress : String
  dutyDoctor : String
  details : String
deriving DecidableEq

/-- State of the `transactions.csv` file: absent, unreadable/malformed, or a
readable table with a header and rows. -/
inductive FileState where
  | absent
  | malformed
  | content (cols : List String) (rows : List RawRow)
deriving DecidableEq

/-- An in-memory dataframe: its column names and its rows. -/
structure DataFrame where
  columns : List String
  rows : List Row
deriving DecidableEq

/-- The fixed fallback schema of `load_data` (source lines 58-61): nine
columns. -/
def fallbackColumns : List String :=
  ["Date", "Category", "Type", "Amount", "Payment Method",
   "Client Name", "Phone Number", "Duty Doctor", "Details"]

/-- The ten keys of `new_row` (source lines 146-157): the columns an appended
transaction row carries. -/
def newRowColumns : List String :=
  ["Date", "Category", "Type", "Amount", "Payment Method",
   "Client Name", "Phone Number", "Client Address", "Duty Doctor", "Details"]

/-- Coerce a raw CSV row to an in-memory row: only the `Date` column changes
representation (`pd.to_datetime(..., errors="coerce")`). -/
def coerceRow (r : RawRow) : Row :=
  { date := parseDateCell r.date
    category := r.category
    type := r.type
    amount := r.amount
    paymentMethod := r.paymentMethod
    clientName := r.clientName
    phoneNumber := r.phoneNumber
    clientAddress := r.clientAddress
    dutyDoctor := r.dutyDoctor
    details := r.details }

/-- Serialise an in-memory row for `df.to_csv`: a real timestamp writes a
well-formed timestamp string, NaT writes an empty cell. -/
def serializeRow (r : Row) : RawRow :=
  { date := match r.date with
      | some n => DateCell.iso n
      | none => DateCell.empty
    category := r.category
    type := r.type
    amount := r.amount
    paymentMethod := r.paymentMethod
    clientName := r.clientName
    phoneNumber := r.phoneNumber
    clientAddress := r.clientAddress
    dutyDoctor := r.dutyDoctor
    details := r.details }

/-- `load_data` (source lines 52-61): read the CSV and coerce the `Date`
column; on any failure (absent file, malformed file, or a missing `Date`
column, which raises a KeyError) return an empty dataframe with the fixed
nine-column fallback schema. -/
def load_data : FileState → DataFrame
  | .content cols rs =>
      if "Date" ∈ cols then ⟨cols, rs.map coerceRow⟩
      else ⟨fallbackColumns, []⟩
  | _ => ⟨fallbackColumns, []⟩

/-- `save_data` (source lines 63-64): full rewrite of `transactions.csv` with
the dataframe's columns as header. -/
def save_data (df : DataFrame) : FileState :=
  FileState.content df.columns (df.rows.map serializeRow)

/-! ## Transaction form (source lines 115-160) -/

/-- The values entered in the transaction form. -/
structure TransactionForm where
  date : Int
  category : String
  type : String
  amount : ℚ
  paymentMethod : String
  clientName : String
  phoneNumber : String
  clientAddress : String
  dutyDoctor : String
  details : String

/-- `new_row` (source lines 146-157): the appended row built from the form. -/
def new_row (f : TransactionForm) : Row :=
  { date := some f.date
    category := f.category
    type := f.type
    amount := f.amount
    paymentMethod := f.paymentMethod
    clientName := f.clientName
    phoneNumber := f.phoneNumber
    clientAddress := f.clientAddress
    dutyDoctor := f.dutyDoctor
    details := f.details }

/-- Column union as `pd.concat` computes it: the first frame's columns, then
any new columns in order of appearance. -/
def concatColumns (a b : List String) : List String :=
  a ++ b.filter (fun c => decide (c ∉ a))

/-- `pd.concat([df, new_row], ignore_index=True)` (source line 158). -/
def concatRow (df : DataFrame) (r : Row) : DataFrame :=
  ⟨concatColumns df.columns newRowColumns, df.rows ++ [r]⟩

/-- Outcome of submitting the transaction form. -/
inductive SubmitResult where
  | formError
  | saved (df : DataFrame) (file : FileState)
deriving DecidableEq

/-- The submit handler (source lines 142-160): an empty category is rejected
with an error and nothing is written; otherwise the row is appended and the
whole file rewritten. -/
def submitTransaction (df : DataFrame) (f : TransactionForm) : SubmitResult :=
  if f.category = "" then SubmitResult.formError
  else
    let df2 := concatRow df (new_row f)
    SubmitResult.saved df2 (save_data df2)

/-! ## Login (source lines 21-41) -/

/-- Ephemeral session state. -/
structure Session where
  loggedIn : Bool
  username : String
  role : String
deriving DecidableEq

/-- The static credential table `USERS` (source lines 21-25):
(username, password, role). -/
def USERS : List (String × String × String) :=
  [("admin", "surokkha123", "Admin"),
   ("staff1", "staffpass", "Staff"),
   ("viewer1", "viewonly", "Viewer")]

/-- `USERS.get(username)`: the (password, role) pair for a username. -/
def lookupUser (u : String) : Option (String × String) :=
  (USERS.find? (fun p => decide (p.1 = u))).map (fun p => p.2)

/-- The login button handler (source lines 32-40): session state is set only
on an exact username/password match; otherwise it is left unchanged (an error
message is shown). -/
def attemptLogin (s : Session) (u p : String) : Session :=
  match lookupUser u with
  | some pr => if pr.1 = p then ⟨true, u, pr.2⟩ else s
  | none => s

/-! ## Sidebar filter (source lines 104-110) -/

/-- `(Date >= start) & (Date <= end)` on one row; a NaT date compares false. -/
def dateInRange (r : Row) (s e : Int) : Bool :=
  match r.date with
  | some d => decide (s ≤ d) && decide (d ≤ e)
  | none => false

/-- One row against the whole sidebar mask, including `Type.isin(tf)`. -/
def rowMatches (r : Row) (s e : Int) (tf : List String) : Bool :=
  dateInRange r s e && decide (r.type ∈ tf)

/-- `filtered_df` (source lines 104-110): the rows surviving the sidebar date
range and type filter; an empty frame is passed through untouched. -/
def filtered_df (rows : List Row) (s e : Int) (tf : List String) : List Row :=
  if rows.isEmpty then rows
  else rows.filter (fun r => rowMatches r s e tf)

/-! ## Summary engine (source lines 204-224) -/

/-- Sum of the `Amount` column. -/
def sumAmounts (rows : List Row) : ℚ :=
  (rows.map (fun r => r.amount)).sum

/-- `show_summary` (source lines 204-212): (total income, total expense,
transaction count) of a subset; the empty-frame guards of the source mirror
lines 205-206. -/
def show_summary (rows : List Row) : ℚ × ℚ × Nat :=
  let income :=
    if rows.isEmpty then 0
    else sumAmounts (rows.filter (fun r => decide (r.type = "Income")))
  let expense :=
    if rows.isEmpty then 0
    else sumAmounts (rows.filter (fun r => decide (r.type = "Expense")))
  (income, expense, rows.length)

/-- One row against `df["Date"] >= start`; NaT compares false. -/
def dateGe (r : Row) (s : Int) : Bool :=
  match r.date with
  | some d => decide (s ≤ d)
  | none => false

/-- `period_df` (source line 223): rows on or after the window start, with the
source's empty-frame guard. -/
def periodRows (rows : List Row) (start : Int) : List Row :=
  if rows.isEmpty then rows
  else rows.filter (fun r => dateGe r start)

/-- The five fixed trailing windows (source lines 214-220): label and start
day. -/
def periodStarts (today : Int) : List (String × Int) :=
  [("Last 7 Days", today - 7),
   ("Last 30 Days", today - 30),
   ("Last 3 Months", today - 90),
   ("Last 6 Months", today - 180),
   ("Last Year", today - 365)]

/-- The analytics loop (source lines 222-224): one summary per window, over
the given rows. -/
def analyticsSummaries (rows : List Row) (today : Int) :
    List (String × ℚ × ℚ × Nat) :=
  (periodStarts today).map (fun p => (p.1, show_summary (periodRows rows p.2)))

/-- The analytics section as wired in the app: it receives the sidebar filter
inputs (they exist in scope) but computes over the full loaded table `df`
(source line 223), not over `filtered_df`. -/
def appSummaries (fs : FileState) (today s e : Int) (tf : List String) :
    List (String × ℚ × ℚ × Nat) :=
  let df := load_data fs
  let _sidebar := filtered_df df.rows s e tf
  analyticsSummaries df.rows today

/-! ## Category manager (source lines 179-198) -/

/-- State of the `categories.csv` file. -/
inductive CatFile where
  | absent
  | malformed
  | content (cats : List (String × String))
deriving DecidableEq

/-- `save_categories` (source lines 75-76): full rewrite of the file. -/
def save_categories (cats : List (String × String)) : CatFile :=
  CatFile.content cats

/-- In-memory category table plus the backing file. -/
structure CategoryStore where
  cats : List (String × String)
  file : CatFile
deriving DecidableEq

/-- Outcome of the Add Category button. -/
inductive AddCatResult where
  | error (store : CategoryStore)
  | added (store : CategoryStore)
deriving DecidableEq

/-- The Add Category handler (source lines 188-197): an empty name shows an
error and performs no write; otherwise the pair is appended and the file
rewritten. -/
def addCategory (st : CategoryStore) (name ty : String) : AddCatResult :=
  if name = "" then AddCatResult.error st
  else
    let cats2 := st.cats ++ [(name, ty)]
    AddCatResult.added ⟨cats2, save_categories cats2⟩

/-! ## Chart builder (source lines 228-257) -/

/-- What one chart column renders: either an explicit "no data" notice or a
stacked bar chart fed one (Month, Category, Amount) point per row. -/
inductive ChartOutput where
  | noData
  | chart (points : List (String × String × ℚ))
deriving DecidableEq

/-- One type's chart (source lines 236-244 and 247-255): filter the rows to
the type; if empty, show the "no data" notice, else a stacked bar keyed by the
month label and coloured by category. -/
def typeChart (rows : List Row) (t : String) : ChartOutput :=
  let sub := rows.filter (fun r => decide (r.type = t))
  if sub.isEmpty then ChartOutput.noData
  else ChartOutput.chart (sub.map (fun r => (monthLabel r.date, r.category, r.amount)))

/-- The height of the stacked segment for a given month and category: the sum
of the amounts of the points landing in that bucket. -/
def stackedValue (pts : List (String × String × ℚ)) (m c : String) : ℚ :=
  ((pts.filter (fun p => decide (p.1 = m) && decide (p.2.1 = c))).map
    (fun p => p.2.2)).sum

/-! ## Receipt renderer (source lines 267-330, numeric content) -/

/-- The computed numeric/identifying content of a receipt. -/
structure Receipt where
  service : String
  unitPrice : ℚ
  quantity : Nat
  lineTotal : ℚ
  tax : ℚ
  grandTotal : ℚ
deriving DecidableEq

/-- `generate_receipt_pdf` (source lines 305-320): a single line item with
quantity 1 and unit price the transaction amount; tax is
`round(total * 0.05, 2)`; grand total is `total + tax`. -/
def generate_receipt_pdf (r : Row) : Receipt :=
  let unit_price := r.amount
  let quantity : Nat := 1
  let total := unit_price * (quantity : ℚ)
  let tax := round2 (total * (5 / 100))
  { service := r.category
    unitPrice := unit_price
    quantity := quantity
    lineTotal := total
    tax := tax
    grandTotal := total + tax }

/-! ## Helper lemmas and example values -/

/-- Serialising a row for `to_csv` and coercing it back on reload is the
identity: real timestamps round-trip, NaT round-trips through the empty
cell. -/
theorem coerceRow_serializeRow (r : Row) : coerceRow (serializeRow r) = r := by
  obtain ⟨d, _, _, _, _, _, _, _, _, _⟩ := r
  cases d <;> rfl

theorem mem_concatColumns (c : String) (a b : List String) :
    c ∈ concatColumns a b ↔ c ∈ a ∨ c ∈ b := by
  simp only [concatColumns, List.mem_append, List.mem_filter,
    decide_eq_true_eq]
  tauto

theorem show_summary_eq (rows : List Row) :
    show_summary rows =
      (sumAmounts (rows.filter (fun r => decide (r.type = "Income"))),
       sumAmounts (rows.filter (fun r => decide (r.type = "Expense"))),
       rows.length) := by
  cases rows <;> rfl

theorem periodRows_eq (rows : List Row) (s : Int) :
    periodRows rows s = rows.filter (fun r => dateGe r s) := by
  cases rows <;> rfl

theorem filtered_df_eq (rows : List Row) (s e : Int) (tf : List String) :
    filtered_df rows s e tf = rows.filter (fun r => rowMatches r s e tf) := by
  cases rows <;> rfl

/-- A sample filled-in transaction form. -/
def exForm : TransactionForm :=
  ⟨123, "Consultation", "Income", 1000, "Cash", "Alice", "017", "Dhaka",
   "Dr. B", "checkup"⟩

/-- A sample income row dated day 0. -/
def exRowIncome : Row :=
  ⟨some 0, "Consultation", "Income", 5, "Cash", "N", "P", "A", "D", "X"⟩

/-- A sample row with amount 1000, for the receipt arithmetic example. -/
def exRow1000 : Row :=
  ⟨some 0, "Surgery", "Income", 1000, "Cash", "N", "P", "A", "D", "X"⟩

/-- A raw CSV row whose `Date` cell is unparseable. -/
def junkRawRow : RawRow :=
  ⟨DateCell.junk "not a date", "Consultation", "Income", 5, "Cash", "N", "P",
   "A", "D", "X"⟩

/-! ## Claims -/

/-- C2 counterexample: the fallback schema of `load_data` is not the set of
columns appended transaction rows carry — `Client Address` is a `new_row` key
but is absent from the fallback columns. -/
theorem load_failure_columns_missing_client_address :
    "Client Address" ∈ newRowColumns ∧
    "Client Address" ∉ (load_data FileState.absent).columns := by
  constructor
  · decide
  · decide

/-- C2 (amended): whenever reading the transactions CSV fails, `load_data`
returns an empty table with the nine declared fallback columns — the appended
rows' columns minus `Client Address` — with no distinction between an absent
file and a malformed one. -/
theorem load_failure_schema :
    load_data FileState.absent = ⟨fallbackColumns, []⟩ ∧
    load_data FileState.malformed = ⟨fallbackColumns, []⟩ ∧
    fallbackColumns =
      newRowColumns.filter (fun c => decide (c ≠ "Client Address")) := by
  refine ⟨rfl, rfl, ?_⟩
  decide

/-- C3: every receipt uses quantity 1 and unit price the transaction amount,
so the line total is the amount; tax is 5% of the line total rounded to two
decimals (Python's `round`), and the grand total is line total plus tax; at
amount 1000 this gives tax 50 and total 1050. -/
theorem receipt_tax_is_five_percent :
    (∀ r : Row,
      (generate_receipt_pdf r).quantity = 1 ∧
      (generate_receipt_pdf r).unitPrice = r.amount ∧
      (generate_receipt_pdf r).lineTotal = r.amount ∧
      (generate_receipt_pdf r).tax = round2 (r.amount * (5 / 100)) ∧
      (generate_receipt_pdf r).grandTotal =
        (generate_receipt_pdf r).lineTotal + (generate_receipt_pdf r).tax) ∧
    (generate_receipt_pdf exRow1000).tax = 50 ∧
    (generate_receipt_pdf exRow1000).grandTotal = 1050 := by
  refine ⟨fun r => ?_, ?_, ?_⟩
  · refine ⟨rfl, rfl, ?_, ?_, rfl⟩
    · simp [generate_receipt_pdf]
    · simp [generate_receipt_pdf]
  · show round2 ((1000 : ℚ) * 1 * (5 / 100)) = 50
    norm_num [round2, pyRound, qfloor]
  · show (1000 : ℚ) * 1 + round2 ((1000 : ℚ) * 1 * (5 / 100)) = 1050
    norm_num [round2, pyRound, qfloor]

/-- C4: the login handler sets the logged-in flag, username and role only on
an exact match in the static credential table; an unknown username or a
wrong password leaves the whole session unchanged. -/
theorem login_requires_exact_match (s : Session) (u p : String) :
    (lookupUser u = none → attemptLogin s u p = s) ∧
    (∀ pw role, lookupUser u = some (pw, role) → pw ≠ p →
      attemptLogin s u p = s) ∧
    (∀ pw role, lookupUser u = some (pw, role) → pw = p →
      attemptLogin s u p = ⟨true, u, role⟩) := by
  refine ⟨?_, ?_, ?_⟩
  · intro h
    simp [attemptLogin, h]
  · intro pw role hl hne
    simp [attemptLogin, hl, hne]
  · intro pw role hl he
    simp [attemptLogin, hl, he]

theorem login_requires_exact_match_witness :
    attemptLogin ⟨false, "", ""⟩ "admin" "wrongpass" = ⟨false, "", ""⟩ :=
  (login_requires_exact_match ⟨false, "", ""⟩ "admin" "wrongpass").2.1
    "surokkha123" "Admin" (by decide) (by decide)

/-- C8: submitting the Add Category form with an empty name yields the error
outcome and leaves both the in-memory category table and the category file
unchanged. -/
theorem add_category_empty_name_no_write (st : CategoryStore) (ty : String) :
    addCategory st "" ty = AddCatResult.error st := by
  simp [addCategory]

/-- C1: submitting the transaction form (with a non-empty category), saving
with `save_data` and reloading with `load_data` yields a table containing the
appended row with all ten fields preserved verbatim. -/
theorem submit_then_reload_preserves_row (df : DataFrame) (f : TransactionForm)
    (h : f.category ≠ "") :
    ∃ df2 fs, submitTransaction df f = SubmitResult.saved df2 fs ∧
      ∃ r ∈ (load_data fs).rows,
        r.date = some f.date ∧ r.category = f.category ∧ r.type = f.type ∧
        r.amount = f.amount ∧ r.paymentMethod = f.paymentMethod ∧
        r.clientName = f.clientName ∧ r.phoneNumber = f.phoneNumber ∧
        r.clientAddress = f.clientAddress ∧ r.dutyDoctor = f.dutyDoctor ∧
        r.details = f.details := by
  refine ⟨concatRow df (new_row f), save_data (concatRow df (new_row f)),
    ?_, ?_⟩
  · simp [submitTransaction, h]
  · have hdate : "Date" ∈ (concatRow df (new_row f)).columns := by
      exact (mem_concatColumns _ _ _).mpr (Or.inr (by decide))
    have hrows : (load_data (save_data (concatRow df (new_row f)))).rows
        = (concatRow df (new_row f)).rows := by
      simp only [save_data, load_data, if_pos hdate, List.map_map]
      simp [Function.comp_def, coerceRow_serializeRow]
    refine ⟨new_row f, ?_, rfl, rfl, rfl, rfl, rfl, rfl, rfl, rfl, rfl, rfl⟩
    rw [hrows]
    simp [concatRow]

theorem submit_then_reload_preserves_row_witness :
    ∃ df2 fs,
      submitTransaction (load_data FileState.absent) exForm =
        SubmitResult.saved df2 fs ∧
      ∃ r ∈ (load_data fs).rows,
        r.date = some exForm.date ∧ r.category = exForm.category ∧
        r.type = exForm.type ∧ r.amount = exForm.amount ∧
        r.paymentMethod = exForm.paymentMethod ∧
        r.clientName = exForm.clientName ∧
        r.phoneNumber = exForm.phoneNumber ∧
        r.clientAddress = exForm.clientAddress ∧
        r.dutyDoctor = exForm.dutyDoctor ∧ r.details = exForm.details :=
  submit_then_reload_preserves_row (load_data FileState.absent) exForm
    (by decide)

/-- The income/expense totals and row count of one trailing window, written
directly from the spec's formulas over the full table. -/
def windowSummarySpec (rows : List Row) (start : Int) : ℚ × ℚ × Nat :=
  ((sumAmounts ((rows.filter (fun r => dateGe r start)).filter
      (fun r => decide (r.type = "Income")))),
   (sumAmounts ((rows.filter (fun r => dateGe r start)).filter
      (fun r => decide (r.type = "Expense")))),
   (rows.filter (fun r => dateGe r start)).length)

/-- C5: the analytics section computes, for each of the five fixed trailing
windows (7/30/90/180/365 days), the income total, expense total and row count
of the rows of the full table on or after the window start; and its output
does not depend on the sidebar date-range/type filter inputs. -/
theorem summaries_use_full_table (rows : List Row) (today : Int)
    (fs : FileState) (s1 e1 s2 e2 : Int) (tf1 tf2 : List String) :
    analyticsSummaries rows today =
      [("Last 7 Days", windowSummarySpec rows (today - 7)),
       ("Last 30 Days", windowSummarySpec rows (today - 30)),
       ("Last 3 Months", windowSummarySpec rows (today - 90)),
       ("Last 6 Months", windowSummarySpec rows (today - 180)),
       ("Last Year", windowSummarySpec rows (today - 365))] ∧
    appSummaries fs today s1 e1 tf1 = appSummaries fs today s2 e2 tf2 := by
  constructor
  · simp [analyticsSummaries, periodStarts, show_summary_eq, periodRows_eq,
      windowSummarySpec]
  · rfl

/-- Partitioning a list's length by two mutually exclusive, jointly
exhaustive boolean predicates. -/
theorem length_filter_partition (l : List Row) (p q : Row → Bool)
    (hpq : ∀ r ∈ l, p r = true ∨ q r = true)
    (hne : ∀ r ∈ l, ¬(p r = true ∧ q r = true)) :
    l.length = (l.filter p).length + (l.filter q).length := by
  induction l with
  | nil => rfl
  | cons a l ih =>
    have ha := hpq a (by simp)
    have hna := hne a (by simp)
    have ih2 := ih (fun r hr => hpq r (by simp [hr]))
      (fun r hr => hne r (by simp [hr]))
    cases hp : p a with
    | false =>
      cases hq : q a with
      | false =>
        rw [hp, hq] at ha
        rcases ha with h | h <;> cases h
      | true =>
        simp [List.filter_cons, hp, hq]
        omega
    | true =>
      cases hq : q a with
      | false =>
        simp [List.filter_cons, hp, hq]
        omega
      | true => exact absurd ⟨hp, hq⟩ hna

/-- C6: in every one of the five summary windows, as long as the rows follow
the transaction data model (Type is Income or Expense), the reported
transaction count equals the number of Income rows plus the number of Expense
rows of that window. -/
theorem window_count_partition (rows : List Row) (today n : Int)
    (_hn : n ∈ ([7, 30, 90, 180, 365] : List Int))
    (hw : ∀ r ∈ rows, r.type = "Income" ∨ r.type = "Expense") :
    (show_summary (periodRows rows (today - n))).2.2 =
      ((periodRows rows (today - n)).filter
        (fun r => decide (r.type = "Income"))).length +
      ((periodRows rows (today - n)).filter
        (fun r => decide (r.type = "Expense"))).length := by
  have hsub : ∀ r ∈ periodRows rows (today - n), r ∈ rows := by
    intro r hr
    rw [periodRows_eq] at hr
    exact (List.mem_filter.mp hr).1
  have h22 : (show_summary (periodRows rows (today - n))).2.2
      = (periodRows rows (today - n)).length := by
    rw [show_summary_eq]
  rw [h22]
  apply length_filter_partition
  · intro r hr
    rcases hw r (hsub r hr) with h | h
    · left
      simpa using h
    · right
      simpa using h
  · rintro r hr ⟨h1, h2⟩
    rw [decide_eq_true_eq] at h1 h2
    rw [h1] at h2
    exact absurd h2 (by decide)

theorem window_count_partition_witness :
    (show_summary (periodRows [exRowIncome] ((0 : Int) - 7))).2.2 =
      ((periodRows [exRowIncome] ((0 : Int) - 7)).filter
        (fun r => decide (r.type = "Income"))).length +
      ((periodRows [exRowIncome] ((0 : Int) - 7)).filter
        (fun r => decide (r.type = "Expense"))).length :=
  window_count_partition [exRowIncome] 0 7 (by decide) (by decide)

/-- C7: the sidebar filter returns exactly the rows whose date lies in the
inclusive range and whose type is in the allowed set; an empty table yields
an empty result, and a range containing no transaction dates yields an empty
result regardless of the type filter. -/
theorem filtered_df_spec (rows : List Row) (s e : Int) (tf : List String) :
    (∀ r, r ∈ filtered_df rows s e tf ↔
      r ∈ rows ∧ (∃ d, r.date = some d ∧ s ≤ d ∧ d ≤ e) ∧ r.type ∈ tf) ∧
    filtered_df ([] : List Row) s e tf = [] ∧
    ((∀ r ∈ rows, dateInRange r s e = false) →
      filtered_df rows s e tf = []) := by
  refine ⟨?_, rfl, ?_⟩
  · intro r
    rw [filtered_df_eq, List.mem_filter]
    constructor
    · rintro ⟨hm, hb⟩
      refine ⟨hm, ?_, ?_⟩
      · unfold rowMatches dateInRange at hb
        cases hd : r.date with
        | none =>
          rw [hd] at hb
          simp at hb
        | some d =>
          rw [hd] at hb
          simp only [Bool.and_eq_true, decide_eq_true_eq] at hb
          exact ⟨d, rfl, hb.1.1, hb.1.2⟩
      · unfold rowMatches at hb
        simp only [Bool.and_eq_true, decide_eq_true_eq] at hb
        exact hb.2
    · rintro ⟨hm, ⟨d, hd, h1, h2⟩, ht⟩
      refine ⟨hm, ?_⟩
      unfold rowMatches dateInRange
      rw [hd]
      simp [h1, h2, ht]
  · intro hall
    rw [filtered_df_eq]
    rw [List.filter_eq_nil_iff]
    intro a ha
    unfold rowMatches
    simp [hall a ha]

theorem filtered_df_spec_witness :
    filtered_df [exRowIncome] 100 200 ["Income"] = [] :=
  (filtered_df_spec [exRowIncome] 100 200 ["Income"]).2.2 (by decide)

/-- The stacked-segment height for (month, category) in the chart fed by the
rows of one type equals the sum of amounts of the rows of that type landing
in that month/category bucket. -/
theorem stackedValue_filter_map (l : List Row) (t m c : String) :
    stackedValue ((l.filter (fun r => decide (r.type = t))).map
        (fun r => (monthLabel r.date, r.category, r.amount))) m c =
      sumAmounts (l.filter (fun r =>
        decide (r.type = t) && decide (monthLabel r.date = m) &&
        decide (r.category = c))) := by
  induction l with
  | nil => rfl
  | cons a l ih =>
    by_cases h1 : a.type = t <;> by_cases h2 : monthLabel a.date = m <;>
      by_cases h3 : a.category = c <;>
      simp only [stackedValue, sumAmounts] at ih ⊢ <;>
      simp [List.filter_cons, h1, h2, h3, ih]

/-- C9: per type, the chart builder shows an explicit "no data" notice when
the type has no rows, and otherwise a stacked chart whose segment for a given
year-month label and category sums exactly the amounts of that type's rows in
that month and category. -/
theorem chart_month_category_buckets (rows : List Row) (t : String) :
    (rows.filter (fun r => decide (r.type = t)) = [] →
      typeChart rows t = ChartOutput.noData) ∧
    (∀ pts, typeChart rows t = ChartOutput.chart pts →
      ∀ m c, stackedValue pts m c =
        sumAmounts (rows.filter (fun r =>
          decide (r.type = t) && decide (monthLabel r.date = m) &&
          decide (r.category = c)))) := by
  constructor
  · intro h
    simp [typeChart, h]
  · intro pts hpts m c
    simp only [typeChart] at hpts
    by_cases hs : (rows.filter (fun r => decide (r.type = t))).isEmpty
    · rw [if_pos hs] at hpts
      simp at hpts
    · rw [if_neg hs] at hpts
      injection hpts with hp
      subst hp
      exact stackedValue_filter_map rows t m c

theorem chart_month_category_buckets_witness :
    typeChart ([] : List Row) "Income" = ChartOutput.noData :=
  (chart_month_category_buckets [] "Income").1 rfl

/-- C10: when the transactions file is readable and has a `Date` column,
`load_data` never falls back to the empty table: every row is kept in order,
all non-date fields are carried over unchanged, and exactly the unparseable
`Date` cells are coerced to null (NaT) while well-formed ones are kept. -/
theorem load_readable_keeps_rows (cols : List String) (rs : List RawRow)
    (hd : "Date" ∈ cols) :
    (load_data (FileState.content cols rs)).columns = cols ∧
    (load_data (FileState.content cols rs)).rows.length = rs.length ∧
    (∀ i : Nat, (load_data (FileState.content cols rs)).rows[i]? =
      (rs[i]?).map coerceRow) ∧
    (∀ c : RawRow, (coerceRow c).date = parseDateCell c.date ∧
      (coerceRow c).category = c.category ∧ (coerceRow c).type = c.type ∧
      (coerceRow c).amount = c.amount ∧
      (coerceRow c).paymentMethod = c.paymentMethod ∧
      (coerceRow c).clientName = c.clientName ∧
      (coerceRow c).phoneNumber = c.phoneNumber ∧
      (coerceRow c).clientAddress = c.clientAddress ∧
      (coerceRow c).dutyDoctor = c.dutyDoctor ∧
      (coerceRow c).details = c.details) ∧
    (∀ s, parseDateCell (DateCell.junk s) = none) ∧
    (∀ n : Int, parseDateCell (DateCell.iso n) = some n) := by
  refine ⟨?_, ?_, ?_, ?_, fun s => rfl, fun n => rfl⟩
  · simp [load_data, hd]
  · simp [load_data, hd]
  · intro i
    simp [load_data, hd, List.getElem?_map]
  · intro c
    exact ⟨rfl, rfl, rfl, rfl, rfl, rfl, rfl, rfl, rfl, rfl⟩

theorem load_readable_keeps_rows_witness :
    (load_data (FileState.content newRowColumns [junkRawRow])).rows.length =
      ([junkRawRow] : List RawRow).length :=
  (load_readable_keeps_rows newRowColumns [junkRawRow] (by decide)).2.1

end Surokkha
